import Mathlib

/-!
Verification development for the NFL Superbowl prediction pipeline
(`NFL_Superbowl_Prediction.py`).

The program loads three tables (games, summary, teams), renames columns,
left-joins per-team summary statistics and opponent defensive statistics
onto each game row, coerces the weighted playoff offense score to numeric,
drops rows with missing features, fits a linear regression, and predicts
the score of a fixed Patriots-vs-Seahawks matchup.

Modelling choices:
* a table cell is `Cell`: a numeric value (modelled as a rational, standing
  for the Python float), a string, or the missing marker `na` (pandas NaN);
* a row is an association list from column names to cells; a table carries
  its column list together with its rows;
* fallible operations (pandas `KeyError` / `IndexError`, the script's
  `sys.exit(1)` handlers) are modelled in the `Except ProgErr` monad;
* the library fit is an abstract fallible parameter
  `fitfn : Table → List Cell → Option (List Cell → ℚ)`: no claim depends
  on the coefficients produced by `sklearn`'s least-squares fit, only on
  the data fed to `predict`, but the fit can fail (for example on an
  empty training set), and the pipeline then aborts in the generic
  training handler of lines 107-111 before any team lookup.
-/

/-- A single table cell: numeric, string, or missing (pandas `NaN`). -/
inductive Cell where
  | num (q : ℚ)
  | str (s : String)
  | na
deriving DecidableEq, Repr

/-- A row of a table: an association list from column names to cells. -/
abbrev Row := List (String × Cell)

/-- Parse an unsigned decimal digit string; fails on empty input or any
non-digit character. -/
def parseDigits (cs : List Char) : Option Nat :=
  if cs.isEmpty then none
  else
    cs.foldl
      (fun acc c =>
        match acc with
        | none => none
        | some n => if c.isDigit then some (10 * n + (c.toNat - 48)) else none)
      (some 0)

/-- Split a character list on `'.'`. -/
def splitDotAux : List Char → List Char → List (List Char)
  | [], acc => [acc.reverse]
  | c :: rest, acc =>
    if c = '.' then acc.reverse :: splitDotAux rest [] else splitDotAux rest (c :: acc)

/-- Parse an unsigned decimal literal (optional fractional part). -/
def parseUnsigned (cs : List Char) : Option ℚ :=
  match splitDotAux cs [] with
  | [intPart] => (parseDigits intPart).map (fun n => (n : ℚ))
  | [intPart, fracPart] =>
    match parseDigits intPart, parseDigits fracPart with
    | some i, some f => some ((i : ℚ) + (f : ℚ) / ((10 : ℚ) ^ fracPart.length))
    | _, _ => none
  | _ => none

/-- Parse a decimal literal (optional leading minus, optional fractional
part) into a rational, as pandas `to_numeric` parses a numeric string. -/
def parseRat (s : String) : Option ℚ :=
  match s.data with
  | '-' :: body => (parseUnsigned body).map (fun q => -q)
  | body => parseUnsigned body

/-- `pd.to_numeric(value, errors='coerce')` on a single cell: numbers stay,
parseable strings become numbers, everything else becomes `na`. -/
def coerceCell : Cell → Cell
  | Cell.num q => Cell.num q
  | Cell.str s =>
    match parseRat s with
    | some q => Cell.num q
    | none => Cell.na
  | Cell.na => Cell.na

/-- First cell stored under column `c`, if the row has that column. -/
def lookupCol (r : Row) (c : String) : Option Cell :=
  (r.find? (fun p => p.1 == c)).map (fun p => p.2)

/-- Cell under column `c`, defaulting to `na` when the column is absent. -/
def getD (r : Row) (c : String) : Cell :=
  (lookupCol r c).getD Cell.na

/-- Replace the value stored under column `c` (all occurrences), keeping
every key in place.  Rows without the column are unchanged. -/
def setCol (r : Row) (c : String) (v : Cell) : Row :=
  r.map (fun p => (p.1, if p.1 == c then v else p.2))

/-- A table: the frame's column list together with its rows. -/
structure Table where
  cols : List String
  rows : List Row
deriving DecidableEq, Repr

/-- Errors through which the script reaches a non-zero exit: the
`KeyError` handler around model training (lines 103-106), the explicit
missing-feature check (lines 93-97), the generic handler around
`model.fit` (lines 107-111), the `IndexError` handler around the team
lookups (lines 124-128), and uncaught `KeyError` / `IndexError` crashes
from the cleaning step (lines 56-62) and the prediction section, both of
which sit outside every `try` block and die with a bare traceback. -/
inductive ProgErr where
  | missingColumns (missing : List String) (available : List String)
  | missingFeatures (missing : List String) (available : List String)
  | trainingError
  | teamLookup (names : List String) (summarySample : List Cell) (teamsSample : List Cell)
  | keyError (key : String)
  | keyErrorCols (missing : List String)
  | indexError
deriving DecidableEq, Repr

/-- The diagnostics that report missing feature columns together with the
frame's available columns: the explicit check of lines 93-97 and the
`KeyError` handler of lines 103-106.  The bare uncaught crashes do not. -/
def reportsMissingFeatures : ProgErr → Bool
  | ProgErr.missingColumns _ _ => true
  | ProgErr.missingFeatures _ _ => true
  | _ => false

/-- Every error path of the script terminates the process with status 1
(each handler calls `sys.exit(1)`; an uncaught exception also exits 1). -/
def exitCode : ProgErr → Nat := fun _ => 1

/-- Winner determination, lines 174-182 of the script. -/
def determineWinner (pat_pred sea_pred : ℚ) : String × ℚ :=
  if pat_pred > sea_pred then ("New England Patriots", pat_pred - sea_pred)
  else if sea_pred > pat_pred then ("Seattle Seahawks", sea_pred - pat_pred)
  else ("Tie", 0)

/-- Series indexing `row[key]`: raises `KeyError` when the key is absent. -/
def getItem (r : Row) (c : String) : Except ProgErr Cell :=
  match lookupCol r c with
  | some v => Except.ok v
  | none => Except.error (ProgErr.keyError c)

/-- Weighted-score helper, lines 134-139: coerce the row's
`Weighted Playoff Offense Score` to numeric; if the coercion yields a
missing value, fall back to the team's `Average Points Scored Per Game`
from the defense table (returned uncoerced, exactly as the source does). -/
def get_weighted_score (team_off team_def_data : Row) : Except ProgErr Cell := do
  let raw ← getItem team_off "Weighted Playoff Offense Score"
  let score := coerceCell raw
  if score = Cell.na then
    getItem team_def_data "Average Points Scored Per Game"
  else
    pure score

/-- Column renames applied to the games table, lines 25-29. -/
def gamesRenameMap : List (String × String) :=
  [("Points Scored", "points_scored"),
   ("Opponent Defensive Tier", "opp_def_tier"),
   ("Game #", "game_num")]

/-- Column renames applied to the summary table, lines 31-36. -/
def summaryRenameMap : List (String × String) :=
  [("Tier 1 Avg Points", "tier1_avg"),
   ("Tier 2 Avg Points", "tier2_avg"),
   ("Tier 3 Avg Points", "tier3_avg"),
   ("Tier 4 Avg Points", "tier4_avg")]

/-- Rename a single column name through a rename map. -/
def renameKey (m : List (String × String)) (k : String) : String :=
  ((m.find? (fun p => p.1 == k)).map (fun p => p.2)).getD k

/-- Rename the keys of one row through a rename map. -/
def renameRow (m : List (String × String)) (r : Row) : Row :=
  r.map (fun p => (renameKey m p.1, p.2))

/-- `DataFrame.rename(columns=m)`. -/
def renameTable (m : List (String × String)) (t : Table) : Table :=
  { cols := t.cols.map (renameKey m), rows := t.rows.map (renameRow m) }

/-- The games table after its renames (line 25). -/
def gamesR (g : Table) : Table := renameTable gamesRenameMap g

/-- The summary table after its renames (line 31); this renamed table is
also the one used by the prediction-time team lookups. -/
def summaryR (s : Table) : Table := renameTable summaryRenameMap s

/-- The opponent-defense projection `teams_opp`, lines 37-39: keep only
`Team` and `Average Points Allowed Per Game`, the latter renamed to
`opp_avg_points_allowed`. -/
def teams_opp (teams : Table) : Table :=
  { cols := ["Team", "opp_avg_points_allowed"],
    rows := teams.rows.map (fun r =>
      [("Team", getD r "Team"),
       ("opp_avg_points_allowed", getD r "Average Points Allowed Per Game")]) }

/-- The non-key columns a left join appends from the right table (the
right key column is not kept: `on="Team"` keeps a single key column, and
the second merge's duplicate `Team_opp` is dropped at line 53). -/
def joinCols (rt : Table) (rkey : String) : List String :=
  rt.cols.filter (fun c => !(c == rkey))

/-- The joined rows one left row contributes: one extended row per
matching right row, or a single row padded with `na` markers when no
right row matches. -/
def joinOne (lr : Row) (rt : Table) (lkey rkey : String) : List Row :=
  match rt.rows.filter (fun rr => decide (getD rr rkey = getD lr lkey)) with
  | [] => [lr ++ (joinCols rt rkey).map (fun c => (c, Cell.na))]
  | ms => ms.map (fun rr => lr ++ (joinCols rt rkey).map (fun c => (c, getD rr c)))

/-- Rows of a left join: every left row is kept; it is extended with the
right row's non-key cells for each match, or with `na` markers when no
right row matches. -/
def leftJoinRows (ls : List Row) (rt : Table) (lkey rkey : String) : List Row :=
  ls.flatMap (fun lr => joinOne lr rt lkey rkey)

/-- `left.merge(right, left_on=lkey, right_on=rkey, how="left")`, with the
duplicate right key column dropped. -/
def leftJoin (lt rt : Table) (lkey rkey : String) : Table :=
  { cols := lt.cols ++ joinCols rt rkey,
    rows := leftJoinRows lt.rows rt lkey rkey }

/-- The joined training table, lines 42-53: left-join renamed games to the
renamed summary on `Team`, then to the opponent-defense projection on
`Opponent` = `Team`. -/
def joinedTable (g s t : Table) : Table :=
  leftJoin (leftJoin (gamesR g) (summaryR s) "Team" "Team") (teams_opp t) "Opponent" "Team"

/-- The four feature columns, lines 81-86, in training order. -/
def features : List String :=
  ["Weighted Playoff Offense Score",
   "Offensive Momentum",
   "opp_avg_points_allowed",
   "opp_def_tier"]

/-- Coerce the `Weighted Playoff Offense Score` cell of one row
(the row-wise effect of the column assignment at lines 56-59). -/
def coerceRow (r : Row) : Row :=
  setCol r "Weighted Playoff Offense Score"
    (coerceCell (getD r "Weighted Playoff Offense Score"))

/-- `dropna(subset=features)` keeps a row exactly when all four feature
cells are non-missing. -/
def featOK (r : Row) : Bool :=
  features.all (fun c => decide (getD r c ≠ Cell.na))

/-- The cleaning step, lines 56-62: coerce the weighted score column to
numeric (non-parsing values become `na`), then drop every row with a
missing value in any of the four feature columns. -/
def cleanGames (t : Table) : Table :=
  { cols := t.cols, rows := (t.rows.map coerceRow).filter featOK }

/-- The cleaned training table the model is fitted on. -/
def cleanedTable (g s t : Table) : Table := cleanGames (joinedTable g s t)

/-- The cleaning step as the program actually runs it.  Lines 56-62 sit
outside every `try` block: reading `games["Weighted Playoff Offense
Score"]` at line 56 raises an uncaught `KeyError` when that column is
absent, and `dropna(subset=features)` at line 62 raises an uncaught
`KeyError` naming every subset column absent from the frame; only when
all four feature columns are present does the value-level
coerce-and-drop of `cleanGames` run. -/
def cleanGamesE (t : Table) : Except ProgErr Table :=
  if "Weighted Playoff Offense Score" ∈ t.cols then
    match features.filter (fun f => decide (¬ f ∈ t.cols)) with
    | [] => Except.ok (cleanGames t)
    | missing => Except.error (ProgErr.keyErrorCols missing)
  else Except.error (ProgErr.keyError "Weighted Playoff Offense Score")

/-- `games[features]` (line 89): selecting several columns raises a
`KeyError` naming every missing column. -/
def selectColsE (g : Table) (cs : List String) : Except ProgErr Table :=
  match cs.filter (fun c => decide (¬ c ∈ g.cols)) with
  | [] => Except.ok { cols := cs, rows := g.rows.map (fun r => cs.map (fun c => (c, getD r c))) }
  | missing => Except.error (ProgErr.missingColumns missing g.cols)

/-- `games["points_scored"]` (line 90): selecting one column raises a
`KeyError` naming it when absent. -/
def seriesE (g : Table) (c : String) : Except ProgErr (List Cell) :=
  if c ∈ g.cols then Except.ok (g.rows.map (fun r => getD r c))
  else Except.error (ProgErr.missingColumns [c] g.cols)

/-- The column checks of the training `try` block, lines 88-97: select
the feature matrix and the target column (a missing column raises
`KeyError`, caught at lines 103-106 which report it with the available
columns and exit), then run the explicit missing-feature check of lines
93-97 (reporting and exiting when it fires). -/
def trainCheck (g : Table) : Except ProgErr (Table × List Cell) := do
  let X ← selectColsE g features
  let y ← seriesE g "points_scored"
  match features.filter (fun f => decide (¬ f ∈ g.cols)) with
  | [] => pure (X, y)
  | missing => Except.error (ProgErr.missingFeatures missing g.cols)

/-- `Series.mean()`: the mean of the column's numeric entries, skipping
missing values; `na` on an all-missing column (line 114 computes this for
the weighted score column of the feature matrix). -/
def colMean (t : Table) (c : String) : Cell :=
  let nums := (t.rows.map (fun r => getD r c)).filterMap
    (fun v => match v with | Cell.num q => some q | _ => none)
  match nums with
  | [] => Cell.na
  | _ => Cell.num (nums.sum / (nums.length : ℚ))

/-- `table[table["Team"] == name]`, the boolean-mask row filter used by
the team lookups. -/
def filterTeam (t : Table) (name : String) : Table :=
  { cols := t.cols, rows := t.rows.filter (fun r => decide (getD r "Team" = Cell.str name)) }

/-- `.iloc[0]`: the first row, raising `IndexError` on an empty frame. -/
def ilocFirst (t : Table) : Except ProgErr Row :=
  match t.rows with
  | [] => Except.error ProgErr.indexError
  | r :: _ => Except.ok r

/-- `Series.unique()`: the column's values with duplicates removed,
keeping first occurrences in order. -/
def uniqueCells (t : Table) (c : String) : List Cell :=
  (t.rows.map (fun r => getD r c)).foldl
    (fun acc v => if v ∈ acc then acc else acc ++ [v]) []

/-- The diagnostic produced by the `IndexError` handler at lines 124-128:
it names both fixed teams and prints a sample (first 10 unique values) of
the team names available in the summary and teams tables. -/
def mkLookupErr (summary teams : Table) : ProgErr :=
  ProgErr.teamLookup
    ["New England Patriots", "Seattle Seahawks"]
    ((uniqueCells summary "Team").take 10)
    ((uniqueCells teams "Team").take 10)

/-- The team-lookup `try` block, lines 117-128: fetch the first matching
row for each of the four (team, table) pairs in source order; an
`IndexError` from any of them is caught and turned into the handler's
diagnostic. -/
def lookupStage (summary teams : Table) : Except ProgErr (Row × Row × Row × Row) :=
  match (do
    let pat_off ← ilocFirst (filterTeam summary "New England Patriots")
    let sea_def ← ilocFirst (filterTeam teams "Seattle Seahawks")
    let sea_off ← ilocFirst (filterTeam summary "Seattle Seahawks")
    let pat_def ← ilocFirst (filterTeam teams "New England Patriots")
    pure (pat_off, sea_def, sea_off, pat_def) : Except ProgErr (Row × Row × Row × Row)) with
  | Except.error ProgErr.indexError => Except.error (mkLookupErr summary teams)
  | Except.error e => Except.error e
  | Except.ok v => Except.ok v

/-- One-row `pd.DataFrame([dict], columns=cols)`: the row's cells are laid
out in the requested column order. -/
def mkDF (cells : Row) (cs : List String) : Table :=
  { cols := cs, rows := [cs.map (fun c => (c, getD cells c))] }

/-- The Patriots prediction frame `pat_df`, lines 143-148. -/
def pat_df (w m a t : Cell) : Table :=
  mkDF
    [("Weighted Playoff Offense Score", w),
     ("Offensive Momentum", m),
     ("opp_avg_points_allowed", a),
     ("opp_def_tier", t)]
    features

/-- The Seahawks prediction frame `sea_df`, lines 160-165. -/
def sea_df (w m a t : Cell) : Table :=
  mkDF
    [("Weighted Playoff Offense Score", w),
     ("Offensive Momentum", m),
     ("opp_avg_points_allowed", a),
     ("opp_def_tier", t)]
    features

/-- The values of a one-row frame in column order: what
`model.predict(df)[0]` consumes. -/
def rowVals (t : Table) : List Cell :=
  t.cols.map (fun c => getD (t.rows.headD []) c)

/-- The prediction section, lines 142-167: re-look-up each team's own
defense row (lines 142 and 159 are outside any `try`, so an empty result
would crash with an uncaught `IndexError`), compute the weighted score
with its fallback, assemble each one-row feature frame in the trained
column order, and apply the fitted model to each. -/
def predictStage (pf : List Cell → ℚ) (teams : Table)
    (pat_off sea_def sea_off pat_def : Row) : Except ProgErr (ℚ × ℚ) := do
  let pat_team ← ilocFirst (filterTeam teams "New England Patriots")
  let pat_weighted_score ← get_weighted_score pat_off pat_team
  let pat_mom ← getItem pat_off "Offensive Momentum"
  let sea_allowed ← getItem sea_def "Average Points Allowed Per Game"
  let sea_tier ← getItem sea_def "Defensive Tier Rank"
  let pat_pred := pf (rowVals (pat_df pat_weighted_score pat_mom sea_allowed sea_tier))
  let sea_team ← ilocFirst (filterTeam teams "Seattle Seahawks")
  let sea_weighted_score ← get_weighted_score sea_off sea_team
  let sea_mom ← getItem sea_off "Offensive Momentum"
  let pat_allowed ← getItem pat_def "Average Points Allowed Per Game"
  let pat_tier ← getItem pat_def "Defensive Tier Rank"
  let sea_pred := pf (rowVals (sea_df sea_weighted_score sea_mom pat_allowed pat_tier))
  pure (pat_pred, sea_pred)

/-- Everything the script prints after a successful run is a function of
these four values: the two predictions (printed to one decimal place), the
winner line and the margin line. -/
structure Output where
  pat_pred : ℚ
  sea_pred : ℚ
  winner : String
  margin : ℚ
deriving DecidableEq, Repr

/-- The whole pipeline after file loading.  The library fit
`model.fit(X, y)` (lines 99-100) is abstracted as the fallible parameter
`fitfn`: it either produces a fitted predictor or fails (as `sklearn`
raises on, for example, an empty training set or a missing target), in
which case the generic handler at lines 107-111 prints "ERROR during
model training" and exits 1 before any team lookup.  Stages in program
order: join, fallible cleaning (lines 56-62, outside any `try`), the
train-time column checks, the fit, the (unused) training-set mean of the
weighted score (line 114), team lookups, the two predictions and the
winner. -/
def runPipeline (g s t : Table)
    (fitfn : Table → List Cell → Option (List Cell → ℚ)) : Except ProgErr Output := do
  let cleaned ← cleanGamesE (joinedTable g s t)
  let (X, y) ← trainCheck cleaned
  let pf ← (match fitfn X y with
    | some pf => Except.ok pf
    | none => Except.error ProgErr.trainingError)
  let _mean_weighted_score := colMean X "Weighted Playoff Offense Score"
  let (pat_off, sea_def, sea_off, pat_def) ← lookupStage (summaryR s) t
  let (pat_pred, sea_pred) ← predictStage pf t pat_off sea_def sea_off pat_def
  let wm := determineWinner pat_pred sea_pred
  pure { pat_pred := pat_pred, sea_pred := sea_pred, winner := wm.1, margin := wm.2 }

/-- The same pipeline with the `mean_weighted_score` computation of
line 114 removed — the spec's claim is that this mean is dead code. -/
def runPipelineNoMean (g s t : Table)
    (fitfn : Table → List Cell → Option (List Cell → ℚ)) : Except ProgErr Output := do
  let cleaned ← cleanGamesE (joinedTable g s t)
  let (X, y) ← trainCheck cleaned
  let pf ← (match fitfn X y with
    | some pf => Except.ok pf
    | none => Except.error ProgErr.trainingError)
  let (pat_off, sea_def, sea_off, pat_def) ← lookupStage (summaryR s) t
  let (pat_pred, sea_pred) ← predictStage pf t pat_off sea_def sea_off pat_def
  let wm := determineWinner pat_pred sea_pred
  pure { pat_pred := pat_pred, sea_pred := sea_pred, winner := wm.1, margin := wm.2 }

/-! ## Claim C1: winner determination -/

/-- C1: for every pair of predicted scores, a strictly higher Patriots
prediction makes the Patriots the winner with nonnegative margin
`pat_pred - sea_pred`; a strictly higher Seahawks prediction makes the
Seahawks the winner with nonnegative margin `sea_pred - pat_pred`; equal
predictions yield a tie with margin 0. -/
theorem winner_determination (p s : ℚ) :
    (p > s → determineWinner p s = ("New England Patriots", p - s) ∧ 0 ≤ p - s) ∧
    (s > p → determineWinner p s = ("Seattle Seahawks", s - p) ∧ 0 ≤ s - p) ∧
    (p = s → determineWinner p s = ("Tie", 0)) := by
  refine ⟨fun h => ?_, fun h => ?_, fun h => ?_⟩
  · exact ⟨by simp [determineWinner, h], by linarith⟩
  · have h1 : ¬ p > s := not_lt.mpr (le_of_lt h)
    exact ⟨by simp [determineWinner, h1, h], by linarith⟩
  · simp [determineWinner, h]

/-- Closed witness for C1 at concrete scores 3, 2 and 2, 2. -/
theorem winner_determination_witness :
    determineWinner 3 2 = ("New England Patriots", 1) ∧
    determineWinner 2 3 = ("Seattle Seahawks", 1) ∧
    determineWinner 2 2 = ("Tie", 0) := by
  refine ⟨?_, ?_, ?_⟩
  · exact ((winner_determination 3 2).1 (by norm_num)).1.trans (by norm_num)
  · exact ((winner_determination 2 3).2.1 (by norm_num)).1.trans (by norm_num)
  · exact (winner_determination 2 2).2.2 rfl

/-! ## Claim C2: weighted score with fallback substitution -/

/-- C2: `get_weighted_score` returns the coerced primary score exactly
when the coercion succeeds, and otherwise returns the defense table's
`Average Points Scored Per Game` cell (so the fallback triggers if and
only if the coercion fails, and the result is non-missing whenever the
fallback value is present); no zero and no training-set mean is ever
substituted. -/
theorem weighted_score_fallback (team_off team_def : Row) (v : Cell)
    (hv : lookupCol team_off "Weighted Playoff Offense Score" = some v) :
    (coerceCell v ≠ Cell.na →
      get_weighted_score team_off team_def = Except.ok (coerceCell v)) ∧
    (coerceCell v = Cell.na →
      get_weighted_score team_off team_def =
        getItem team_def "Average Points Scored Per Game") ∧
    (∀ f, lookupCol team_def "Average Points Scored Per Game" = some f →
      f ≠ Cell.na →
      ∃ x, get_weighted_score team_off team_def = Except.ok x ∧ x ≠ Cell.na) := by
  have hW : getItem team_off "Weighted Playoff Offense Score" = Except.ok v := by
    simp [getItem, hv]
  have key : get_weighted_score team_off team_def =
      (if coerceCell v = Cell.na then getItem team_def "Average Points Scored Per Game"
       else Except.ok (coerceCell v)) := by
    unfold get_weighted_score
    rw [hW]
    rfl
  refine ⟨fun hne => ?_, fun heq => ?_, fun f hf hfna => ?_⟩
  · rw [key, if_neg hne]
  · rw [key, if_pos heq]
  · by_cases h : coerceCell v = Cell.na
    · refine ⟨f, ?_, hfna⟩
      rw [key, if_pos h]
      simp [getItem, hf]
    · refine ⟨coerceCell v, ?_, h⟩
      rw [key, if_neg h]

/-- Closed witness for C2: a non-parsing score falls back to the defense
table's average points scored, and a parsing score is used directly. -/
theorem weighted_score_fallback_witness :
    get_weighted_score
      [("Weighted Playoff Offense Score", Cell.str "--")]
      [("Average Points Scored Per Game", Cell.num 25)] = Except.ok (Cell.num 25) ∧
    get_weighted_score
      [("Weighted Playoff Offense Score", Cell.str "7")]
      [("Average Points Scored Per Game", Cell.num 25)] =
        Except.ok (coerceCell (Cell.str "7")) := by
  constructor
  · have h := (weighted_score_fallback
      [("Weighted Playoff Offense Score", Cell.str "--")]
      [("Average Points Scored Per Game", Cell.num 25)]
      (Cell.str "--") rfl).2.1 (by decide)
    exact h.trans rfl
  · exact (weighted_score_fallback
      [("Weighted Playoff Offense Score", Cell.str "7")]
      [("Average Points Scored Per Game", Cell.num 25)]
      (Cell.str "7") rfl).1 (by decide)

/-! ## Claim C3: feature vector shape and order -/

/-- C3: both one-row prediction frames carry exactly the training column
list `features` (length 4), and the value vector handed to `predict` is
the four cells in exactly that order. -/
theorem feature_vector_shape (w m a t : Cell) :
    (pat_df w m a t).cols = features ∧
    (sea_df w m a t).cols = features ∧
    rowVals (pat_df w m a t) = [w, m, a, t] ∧
    rowVals (sea_df w m a t) = [w, m, a, t] ∧
    (rowVals (pat_df w m a t)).length = 4 ∧
    (rowVals (sea_df w m a t)).length = 4 ∧
    features = ["Weighted Playoff Offense Score", "Offensive Momentum",
                "opp_avg_points_allowed", "opp_def_tier"] := by
  refine ⟨rfl, rfl, rfl, rfl, rfl, rfl, rfl⟩

/-! ## Helper lemmas about row updates and cleaning -/

lemma lookupCol_setCol_self (r : Row) (c : String) (v : Cell) :
    lookupCol (setCol r c v) c = (lookupCol r c).map (fun _ => v) := by
  induction r with
  | nil => rfl
  | cons p r ih =>
    simp only [setCol, List.map_cons, lookupCol, List.find?]
    cases h : p.1 == c with
    | true => simp [h]
    | false => simpa [h, lookupCol, setCol] using ih

lemma lookupCol_setCol_ne (r : Row) (c c' : String) (v : Cell) (h : c' ≠ c) :
    lookupCol (setCol r c v) c' = lookupCol r c' := by
  induction r with
  | nil => rfl
  | cons p r ih =>
    simp only [setCol, List.map_cons, lookupCol, List.find?]
    cases hp : p.1 == c' with
    | true =>
      have hpc : p.1 = c' := by simpa using hp
      have hne : p.1 ≠ c := fun hh => h (hpc.symm.trans hh)
      have hfalse : (p.1 == c) = false := by simpa using hne
      simp [hp, hfalse]
    | false => simpa [hp, lookupCol, setCol] using ih

lemma setCol_absent (r : Row) (c : String) (v : Cell)
    (h : lookupCol r c = none) : setCol r c v = r := by
  induction r with
  | nil => rfl
  | cons p r ih =>
    simp only [lookupCol, List.find?] at h
    cases hp : p.1 == c with
    | true => simp [hp] at h
    | false =>
      simp only [hp] at h
      simp only [setCol, List.map_cons, hp, if_neg]
      refine congrArg₂ _ rfl ?_
      exact ih (by simpa [lookupCol] using h)

lemma setCol_setCol (r : Row) (c : String) (v w : Cell) :
    setCol (setCol r c v) c w = setCol r c w := by
  simp only [setCol, List.map_map]
  apply List.map_congr_left
  intro p _
  cases h : p.1 == c with
  | false =>
    have hne : p.1 ≠ c := by simpa using h
    simp [hne]
  | true =>
    have heq : p.1 = c := by simpa using h
    simp [heq]

lemma coerceCell_idem (x : Cell) : coerceCell (coerceCell x) = coerceCell x := by
  cases x with
  | num q => rfl
  | na => rfl
  | str s =>
    simp only [coerceCell]
    cases parseRat s <;> rfl

lemma getD_coerceRow (r : Row) (v : Cell)
    (h : lookupCol r "Weighted Playoff Offense Score" = some v) :
    getD (coerceRow r) "Weighted Playoff Offense Score" = coerceCell v := by
  simp [coerceRow, getD, lookupCol_setCol_self, h]

lemma coerceRow_idem (r : Row) : coerceRow (coerceRow r) = coerceRow r := by
  cases h : lookupCol r "Weighted Playoff Offense Score" with
  | none =>
    have hr : coerceRow r = r := by
      unfold coerceRow
      exact setCol_absent _ _ _ h
    rw [hr]
    exact hr
  | some v =>
    have hg : getD (coerceRow r) "Weighted Playoff Offense Score" = coerceCell v :=
      getD_coerceRow r v h
    have hv : getD r "Weighted Playoff Offense Score" = v := by simp [getD, h]
    show setCol (coerceRow r) "Weighted Playoff Offense Score"
        (coerceCell (getD (coerceRow r) "Weighted Playoff Offense Score")) = coerceRow r
    rw [hg, coerceCell_idem]
    show setCol (setCol r "Weighted Playoff Offense Score"
        (coerceCell (getD r "Weighted Playoff Offense Score")))
        "Weighted Playoff Offense Score" (coerceCell v) = coerceRow r
    rw [setCol_setCol]
    unfold coerceRow
    rw [hv]

lemma getD_coerceRow_ne (r : Row) (c : String)
    (h : c ≠ "Weighted Playoff Offense Score") :
    getD (coerceRow r) c = getD r c := by
  simp [coerceRow, getD, lookupCol_setCol_ne _ _ _ _ h]

lemma featOK_iff (r : Row) :
    featOK r = true ↔ ∀ c ∈ features, getD r c ≠ Cell.na := by
  simp [featOK, List.all_eq_true]

lemma mem_cleanGames_iff (t : Table) (r' : Row) :
    r' ∈ (cleanGames t).rows ↔
      (∃ r ∈ t.rows, coerceRow r = r') ∧ ∀ c ∈ features, getD r' c ≠ Cell.na := by
  simp only [cleanGames, List.mem_filter, List.mem_map, featOK_iff]

/-! ## Claim C4: the cleaning step -/

/-- C4: cleaning coerces the weighted score column cell-wise (a
non-parsing value becomes the missing marker, raising no error), then
keeps exactly the rows whose four feature cells are all non-missing; it
never grows the table and leaves the column list unchanged. -/
theorem cleaning_coerce_and_drop (t : Table) :
    (∀ r v, lookupCol r "Weighted Playoff Offense Score" = some v →
        getD (coerceRow r) "Weighted Playoff Offense Score" = coerceCell v) ∧
    (∀ s, parseRat s = none → coerceCell (Cell.str s) = Cell.na) ∧
    (∀ r' : Row, r' ∈ (cleanGames t).rows ↔
        (∃ r ∈ t.rows, coerceRow r = r') ∧ ∀ c ∈ features, getD r' c ≠ Cell.na) ∧
    (cleanGames t).rows.length ≤ t.rows.length ∧
    (cleanGames t).cols = t.cols := by
  refine ⟨getD_coerceRow, fun s hs => ?_, mem_cleanGames_iff t, ?_, rfl⟩
  · simp [coerceCell, hs]
  · calc ((t.rows.map coerceRow).filter featOK).length
        ≤ (t.rows.map coerceRow).length := List.length_filter_le _ _
      _ = t.rows.length := List.length_map _ _

/-- Closed witness for C4: a non-parsing score cell is coerced to the
missing marker and the row carrying it is dropped, the fully numeric row
survives. -/
theorem cleaning_coerce_and_drop_witness :
    getD (coerceRow [("Weighted Playoff Offense Score", Cell.str "--")])
      "Weighted Playoff Offense Score" = Cell.na ∧
    (cleanGames ⟨["Weighted Playoff Offense Score"],
      [[("Weighted Playoff Offense Score", Cell.str "--")]]⟩).rows.length ≤ 1 := by
  constructor
  · exact ((cleaning_coerce_and_drop ⟨[], []⟩).1
      [("Weighted Playoff Offense Score", Cell.str "--")] (Cell.str "--") rfl).trans (by decide)
  · exact (cleaning_coerce_and_drop ⟨["Weighted Playoff Offense Score"],
      [[("Weighted Playoff Offense Score", Cell.str "--")]]⟩).2.2.2.1

/-! ## Claim C5: cleaning is idempotent -/

/-- C5: applying the coercion-and-drop step to its own output changes
nothing: the same table (hence the same row count) comes back. -/
theorem cleaning_idempotent (t : Table) : cleanGames (cleanGames t) = cleanGames t := by
  have h1 : ∀ r ∈ (t.rows.map coerceRow).filter featOK, coerceRow r = r := by
    intro r hr
    obtain ⟨a, -, ha⟩ := List.mem_map.mp (List.mem_of_mem_filter hr)
    rw [← ha, coerceRow_idem]
  have h2 : ((t.rows.map coerceRow).filter featOK).map coerceRow
      = (t.rows.map coerceRow).filter featOK := by
    calc ((t.rows.map coerceRow).filter featOK).map coerceRow
        = ((t.rows.map coerceRow).filter featOK).map id := List.map_congr_left h1
      _ = (t.rows.map coerceRow).filter featOK := List.map_id _
  simp only [cleanGames, Table.mk.injEq, true_and]
  rw [h2]
  apply List.filter_eq_self.mpr
  intro a ha
  exact List.of_mem_filter ha

/-! ## Claim C10: cleaning never filters on the training target -/

/-- C10: a game row whose four (coerced) feature cells are all present is
kept by cleaning even when its `points_scored` cell is missing, and its
target cell is still missing in the cleaned table handed to the fit. -/
theorem target_missing_row_kept (t : Table) (r : Row)
    (hmem : r ∈ t.rows)
    (hfeat : ∀ c ∈ features, getD (coerceRow r) c ≠ Cell.na)
    (htarget : getD r "points_scored" = Cell.na) :
    coerceRow r ∈ (cleanGames t).rows ∧
    getD (coerceRow r) "points_scored" = Cell.na := by
  refine ⟨(mem_cleanGames_iff t (coerceRow r)).mpr ⟨⟨r, hmem, rfl⟩, hfeat⟩, ?_⟩
  rw [getD_coerceRow_ne r "points_scored" (by decide), htarget]

/-- Closed witness for C10: a row with all four features present but a
missing target survives cleaning with its target still missing. -/
theorem target_missing_row_kept_witness :
    coerceRow
        [("Weighted Playoff Offense Score", Cell.num 7),
         ("Offensive Momentum", Cell.num 2),
         ("opp_avg_points_allowed", Cell.num 21),
         ("opp_def_tier", Cell.num 1),
         ("points_scored", Cell.na)] ∈
      (cleanGames { cols := ["Weighted Playoff Offense Score", "Offensive Momentum",
                             "opp_avg_points_allowed", "opp_def_tier", "points_scored"],
                    rows := [[("Weighted Playoff Offense Score", Cell.num 7),
                              ("Offensive Momentum", Cell.num 2),
                              ("opp_avg_points_allowed", Cell.num 21),
                              ("opp_def_tier", Cell.num 1),
                              ("points_scored", Cell.na)]] }).rows := by
  exact (target_missing_row_kept _ _ (by decide) (by decide) (by decide)).1

/-! ## Claim C9: the training-set mean is dead code -/

/-- C9: the pipeline computing `mean_weighted_score` (line 114) and the
pipeline with that computation removed produce identical results on every
input and every behaviour of the library fit — the mean feeds no
prediction, no winner, no margin and no printed value. -/
theorem mean_weighted_score_unused (g s t : Table)
    (fitfn : Table → List Cell → Option (List Cell → ℚ)) :
    runPipeline g s t fitfn = runPipelineNoMean g s t fitfn := rfl

/-! ## Helper lemmas about the left join -/

lemma ok_bind {α β : Type} (a : α) (f : α → Except ProgErr β) :
    (Except.ok a >>= f) = f a := rfl

lemma error_bind {α β : Type} (e : ProgErr) (f : α → Except ProgErr β) :
    ((Except.error e : Except ProgErr α) >>= f) = Except.error e := rfl

lemma joinOne_length (lr : Row) (rt : Table) (lk rk : String)
    (h : (rt.rows.filter (fun rr => decide (getD rr rk = getD lr lk))).length ≤ 1) :
    (joinOne lr rt lk rk).length = 1 := by
  unfold joinOne
  cases hm : rt.rows.filter (fun rr => decide (getD rr rk = getD lr lk)) with
  | nil => rfl
  | cons x xs =>
    rw [hm] at h
    cases xs with
    | nil => rfl
    | cons y ys => simp at h

lemma leftJoinRows_length (ls : List Row) (rt : Table) (lk rk : String)
    (h : ∀ lr ∈ ls, (rt.rows.filter (fun rr => decide (getD rr rk = getD lr lk))).length ≤ 1) :
    (leftJoinRows ls rt lk rk).length = ls.length := by
  induction ls with
  | nil => rfl
  | cons lr ls ih =>
    have h1 := joinOne_length lr rt lk rk (h lr (List.mem_cons_self _ _))
    have h2 := ih (fun a ha => h a (List.mem_cons_of_mem _ ha))
    simp only [leftJoinRows, List.flatMap_cons, List.length_append, List.length_cons]
    simp only [leftJoinRows] at h2
    rw [h1, h2]
    omega

lemma joinOne_retains (lr : Row) (rt : Table) (lk rk : String) :
    ∃ ext, lr ++ ext ∈ joinOne lr rt lk rk := by
  unfold joinOne
  cases hm : rt.rows.filter (fun rr => decide (getD rr rk = getD lr lk)) with
  | nil => exact ⟨(joinCols rt rk).map (fun c => (c, Cell.na)), List.mem_singleton_self _⟩
  | cons x xs =>
    refine ⟨(joinCols rt rk).map (fun c => (c, getD x c)), ?_⟩
    exact List.mem_map.mpr ⟨x, List.mem_cons_self _ _, rfl⟩

lemma leftJoinRows_retains (ls : List Row) (rt : Table) (lk rk : String)
    (lr : Row) (hl : lr ∈ ls) :
    ∃ ext, lr ++ ext ∈ leftJoinRows ls rt lk rk := by
  obtain ⟨ext, hext⟩ := joinOne_retains lr rt lk rk
  exact ⟨ext, List.mem_flatMap.mpr ⟨lr, hl, hext⟩⟩

lemma leftJoinRows_unmatched (ls : List Row) (rt : Table) (lk rk : String)
    (lr : Row) (hl : lr ∈ ls)
    (hm : rt.rows.filter (fun rr => decide (getD rr rk = getD lr lk)) = []) :
    lr ++ (joinCols rt rk).map (fun c => (c, Cell.na)) ∈ leftJoinRows ls rt lk rk := by
  refine List.mem_flatMap.mpr ⟨lr, hl, ?_⟩
  unfold joinOne
  rw [hm]
  exact List.mem_singleton_self _

lemma renameKey_team (m : List (String × String)) (hm : ∀ p ∈ m, p.1 ≠ "Team") :
    renameKey m "Team" = "Team" := by
  unfold renameKey
  have : m.find? (fun p => p.1 == "Team") = none := by
    apply List.find?_eq_none.mpr
    intro p hp
    simpa using hm p hp
  rw [this]
  rfl

lemma lookupCol_renameRow_team (m : List (String × String))
    (hm : ∀ p ∈ m, p.1 ≠ "Team" ∧ p.2 ≠ "Team") (r : Row) :
    lookupCol (renameRow m r) "Team" = lookupCol r "Team" := by
  induction r with
  | nil => rfl
  | cons p r ih =>
    simp only [renameRow, List.map_cons, lookupCol, List.find?]
    have hb : (renameKey m p.1 == "Team") = (p.1 == "Team") := by
      cases hk : p.1 == "Team" with
      | true =>
        have hpt : p.1 = "Team" := by simpa using hk
        rw [hpt, renameKey_team m (fun q hq => (hm q hq).1)]
        simp
      | false =>
        have hne : p.1 ≠ "Team" := by simpa using hk
        have hrne : renameKey m p.1 ≠ "Team" := by
          unfold renameKey
          cases hf : m.find? (fun q => q.1 == p.1) with
          | none => simpa using hne
          | some q =>
            have hq := List.mem_of_find?_eq_some hf
            simpa using (hm q hq).2
        simpa using hrne
    rw [hb]
    cases hk : p.1 == "Team" with
    | true => simp [hk]
    | false => simpa [hk, renameRow, lookupCol] using ih

lemma getD_renameRow_team (m : List (String × String))
    (hm : ∀ p ∈ m, p.1 ≠ "Team" ∧ p.2 ≠ "Team") (r : Row) :
    getD (renameRow m r) "Team" = getD r "Team" := by
  simp [getD, lookupCol_renameRow_team m hm r]

lemma summaryR_filter_length (s : Table) (c : Cell) :
    ((summaryR s).rows.filter (fun rr => decide (getD rr "Team" = c))).length
      = (s.rows.filter (fun rr => decide (getD rr "Team" = c))).length := by
  simp only [summaryR, renameTable]
  rw [List.filter_map]
  rw [List.length_map]
  congr 1
  apply List.filter_congr
  intro r _
  simp only [Function.comp]
  rw [getD_renameRow_team summaryRenameMap (by decide) r]

lemma teams_opp_filter_length (t : Table) (c : Cell) :
    ((teams_opp t).rows.filter (fun rr => decide (getD rr "Team" = c))).length
      = (t.rows.filter (fun rr => decide (getD rr "Team" = c))).length := by
  simp only [teams_opp]
  rw [List.filter_map]
  rw [List.length_map]
  congr 1

/-! ## Claim C6: left joins keep every game row and add none -/

/-- C6: when every team name occurs at most once in the summary table and
at most once in the teams table, the joined training table has exactly as
many rows as the games table (hence no more); every original game row is
kept as a prefix of some joined row; and in any left join a left row with
no match is kept padded with missing markers rather than erroring. -/
theorem left_joins_preserve_rowcount (g s t : Table)
    (hs : ∀ c : Cell, (s.rows.filter (fun rr => decide (getD rr "Team" = c))).length ≤ 1)
    (ht : ∀ c : Cell, (t.rows.filter (fun rr => decide (getD rr "Team" = c))).length ≤ 1) :
    (joinedTable g s t).rows.length = g.rows.length ∧
    (∀ gr ∈ g.rows, ∃ ext, renameRow gamesRenameMap gr ++ ext ∈ (joinedTable g s t).rows) ∧
    (∀ (lt rt : Table) (lk rk : String) (lr : Row), lr ∈ lt.rows →
      rt.rows.filter (fun rr => decide (getD rr rk = getD lr lk)) = [] →
      lr ++ (joinCols rt rk).map (fun c => (c, Cell.na)) ∈ (leftJoin lt rt lk rk).rows) := by
  refine ⟨?_, ?_, ?_⟩
  · have l2 : (joinedTable g s t).rows.length
        = (leftJoin (gamesR g) (summaryR s) "Team" "Team").rows.length := by
      apply leftJoinRows_length
      intro lr _
      rw [teams_opp_filter_length]
      exact ht _
    have l1 : (leftJoin (gamesR g) (summaryR s) "Team" "Team").rows.length
        = (gamesR g).rows.length := by
      apply leftJoinRows_length
      intro lr _
      rw [summaryR_filter_length]
      exact hs _
    have l0 : (gamesR g).rows.length = g.rows.length := by
      simp [gamesR, renameTable]
    exact (l2.trans l1).trans l0
  · intro gr hgr
    have h0 : renameRow gamesRenameMap gr ∈ (gamesR g).rows :=
      List.mem_map_of_mem _ hgr
    obtain ⟨e1, he1⟩ := leftJoinRows_retains (gamesR g).rows (summaryR s) "Team" "Team" _ h0
    obtain ⟨e2, he2⟩ :=
      leftJoinRows_retains (leftJoin (gamesR g) (summaryR s) "Team" "Team").rows
        (teams_opp t) "Opponent" "Team" _ he1
    rw [List.append_assoc] at he2
    exact ⟨e1 ++ e2, he2⟩
  · intro lt rt lk rk lr hl hm
    exact leftJoinRows_unmatched lt.rows rt lk rk lr hl hm

/-- Closed witness for C6 on one-row tables: the joined table has exactly
the games table's single row. -/
theorem left_joins_preserve_rowcount_witness :
    (joinedTable
      ⟨["Team", "Opponent"], [[("Team", Cell.str "A"), ("Opponent", Cell.str "B")]]⟩
      ⟨["Team", "Tier 1 Avg Points"], [[("Team", Cell.str "A"), ("Tier 1 Avg Points", Cell.num 20)]]⟩
      ⟨["Team", "Average Points Allowed Per Game"],
       [[("Team", Cell.str "B"), ("Average Points Allowed Per Game", Cell.num 21)]]⟩).rows.length
      = 1 :=
  (left_joins_preserve_rowcount
      ⟨["Team", "Opponent"], [[("Team", Cell.str "A"), ("Opponent", Cell.str "B")]]⟩
      ⟨["Team", "Tier 1 Avg Points"], [[("Team", Cell.str "A"), ("Tier 1 Avg Points", Cell.num 20)]]⟩
      ⟨["Team", "Average Points Allowed Per Game"],
       [[("Team", Cell.str "B"), ("Average Points Allowed Per Game", Cell.num 21)]]⟩
      (fun _ => List.length_filter_le _ _)
      (fun _ => List.length_filter_le _ _)).1.trans rfl

/-! ## Claim C7: what absence of a feature column actually does -/

lemma trainCheck_ok (tb : Table)
    (hf : ∀ f ∈ features, f ∈ tb.cols) (hy : "points_scored" ∈ tb.cols) :
    trainCheck tb = Except.ok
      ({ cols := features,
         rows := tb.rows.map (fun r => features.map (fun c => (c, getD r c))) },
       tb.rows.map (fun r => getD r "points_scored")) := by
  have hfil : features.filter (fun f => decide (¬ f ∈ tb.cols)) = [] := by
    apply List.filter_eq_nil_iff.mpr
    intro f hf'
    simpa using hf f hf'
  unfold trainCheck selectColsE seriesE
  rw [hfil]
  simp [hy, ok_bind]

lemma cleanGamesE_ok (t : Table) (hf : ∀ f ∈ features, f ∈ t.cols) :
    cleanGamesE t = Except.ok (cleanGames t) := by
  have hW : "Weighted Playoff Offense Score" ∈ t.cols := hf _ (by decide)
  have hfil : features.filter (fun f => decide (¬ f ∈ t.cols)) = [] := by
    apply List.filter_eq_nil_iff.mpr
    intro f hf'
    simpa using hf f hf'
  unfold cleanGamesE
  rw [if_pos hW, hfil]

lemma cleanGamesE_error (t : Table) (h : ∃ f ∈ features, ¬ f ∈ t.cols) :
    ∃ e, cleanGamesE t = Except.error e ∧
      reportsMissingFeatures e = false ∧ exitCode e = 1 := by
  unfold cleanGamesE
  by_cases hW : "Weighted Playoff Offense Score" ∈ t.cols
  · rw [if_pos hW]
    obtain ⟨f0, hf0, hc0⟩ := h
    have hmem : f0 ∈ features.filter (fun f => decide (¬ f ∈ t.cols)) :=
      List.mem_filter.mpr ⟨hf0, by simpa using hc0⟩
    cases hm : features.filter (fun f => decide (¬ f ∈ t.cols)) with
    | nil => exact absurd (hm ▸ hmem) (List.not_mem_nil f0)
    | cons x xs => exact ⟨ProgErr.keyErrorCols (x :: xs), rfl, rfl, rfl⟩
  · rw [if_neg hW]
    exact ⟨ProgErr.keyError "Weighted Playoff Offense Score", rfl, rfl, rfl⟩

/-- C7 (amended): the advertised pre-fit verification can never fire for
the four feature columns.  If any of them is absent, the program aborts
already in the cleaning step, which runs outside every `try` block: an
uncaught `KeyError` on the weighted score column (line 56) when that
column is missing, otherwise an uncaught `KeyError` from
`dropna(subset=features)` (line 62) naming exactly the absent feature
columns; either way the process dies with exit status 1 and without
fitting, but with a bare traceback — no missing-features report and no
listing of the available columns.  Conversely, whenever cleaning
succeeds, all four feature columns are present in the cleaned table, so
`games[features]` (line 89) and the explicit check of lines 93-97 pass. -/
theorem feature_absence_aborts_in_cleaning :
    (∀ t : Table, ¬ "Weighted Playoff Offense Score" ∈ t.cols →
      cleanGamesE t = Except.error (ProgErr.keyError "Weighted Playoff Offense Score")) ∧
    (∀ t : Table, "Weighted Playoff Offense Score" ∈ t.cols →
      (∃ f ∈ features, ¬ f ∈ t.cols) →
      cleanGamesE t = Except.error (ProgErr.keyErrorCols
        (features.filter (fun f => decide (¬ f ∈ t.cols))))) ∧
    (∀ (g s t : Table) (fitfn : Table → List Cell → Option (List Cell → ℚ)),
      (∃ f ∈ features, ¬ f ∈ (joinedTable g s t).cols) →
      ∃ e, runPipeline g s t fitfn = Except.error e ∧
        reportsMissingFeatures e = false ∧ exitCode e = 1) ∧
    (∀ t cleaned, cleanGamesE t = Except.ok cleaned →
      ∀ f ∈ features, f ∈ cleaned.cols) := by
  refine ⟨fun t hW => ?_, fun t hW h => ?_, fun g s t fitfn h => ?_, fun t cleaned h f hf => ?_⟩
  · unfold cleanGamesE
    rw [if_neg hW]
  · unfold cleanGamesE
    rw [if_pos hW]
    obtain ⟨f0, hf0, hc0⟩ := h
    have hmem : f0 ∈ features.filter (fun f => decide (¬ f ∈ t.cols)) :=
      List.mem_filter.mpr ⟨hf0, by simpa using hc0⟩
    cases hm : features.filter (fun f => decide (¬ f ∈ t.cols)) with
    | nil => exact absurd (hm ▸ hmem) (List.not_mem_nil f0)
    | cons x xs => rfl
  · obtain ⟨e, he, hrep, hcode⟩ := cleanGamesE_error (joinedTable g s t) h
    refine ⟨e, ?_, hrep, hcode⟩
    simp only [runPipeline, he, error_bind]
  · unfold cleanGamesE at h
    by_cases hW : "Weighted Playoff Offense Score" ∈ t.cols
    · rw [if_pos hW] at h
      cases hm : features.filter (fun f => decide (¬ f ∈ t.cols)) with
      | nil =>
        rw [hm] at h
        have hc : cleaned = cleanGames t := (Except.ok.inj h).symm
        have hmm := List.filter_eq_nil_iff.mp hm f hf
        rw [hc]
        simpa using hmm
      | cons x xs =>
        rw [hm] at h
        exact Except.noConfusion h
    · rw [if_neg hW] at h
      exact Except.noConfusion h

/-- Closed witness for C7 (amended): with the weighted score column
present but `Opponent Defensive Tier` never supplied, cleaning dies in
`dropna` with an uncaught `KeyError` naming `opp_def_tier`. -/
theorem feature_absence_aborts_in_cleaning_witness :
    cleanGamesE ⟨["Weighted Playoff Offense Score", "Offensive Momentum",
                  "opp_avg_points_allowed", "points_scored"], []⟩ =
      Except.error (ProgErr.keyErrorCols ["opp_def_tier"]) :=
  (feature_absence_aborts_in_cleaning.2.1
    ⟨["Weighted Playoff Offense Score", "Offensive Momentum",
      "opp_avg_points_allowed", "points_scored"], []⟩
    (by decide) ⟨"opp_def_tier", by decide, by decide⟩).trans rfl

/-- Counterexample to C7 as stated: on a concrete input whose games table
lacks the `Opponent Defensive Tier` column, the program terminates with
the uncaught `KeyError` of the cleaning step — an error that reports
neither the missing features nor the available columns — so the claimed
missing-features report is never produced. -/
theorem missing_feature_report_never_fires :
    runPipeline
      ⟨["Team", "Opponent", "Points Scored",
        "Weighted Playoff Offense Score", "Offensive Momentum"], []⟩
      ⟨["Team"], []⟩
      ⟨["Team", "Average Points Allowed Per Game"], []⟩
      (fun _ _ => some (fun _ => 0)) =
      Except.error (ProgErr.keyErrorCols ["opp_def_tier"]) ∧
    reportsMissingFeatures (ProgErr.keyErrorCols ["opp_def_tier"]) = false := by
  constructor
  · rfl
  · rfl

/-! ## Claim C8: a missing fixed team aborts before prediction -/

lemma summaryR_filter_team (s : Table) (c : Cell) :
    (summaryR s).rows.filter (fun rr => decide (getD rr "Team" = c))
      = (s.rows.filter (fun rr => decide (getD rr "Team" = c))).map
          (renameRow summaryRenameMap) := by
  simp only [summaryR, renameTable]
  rw [List.filter_map]
  congr 1
  apply List.filter_congr
  intro r _
  simp only [Function.comp]
  rw [getD_renameRow_team summaryRenameMap (by decide) r]

lemma lookupStage_error (su te : Table)
    (h : (filterTeam su "New England Patriots").rows = [] ∨
         (filterTeam te "Seattle Seahawks").rows = [] ∨
         (filterTeam su "Seattle Seahawks").rows = [] ∨
         (filterTeam te "New England Patriots").rows = []) :
    lookupStage su te = Except.error (mkLookupErr su te) := by
  unfold lookupStage
  cases h1 : (filterTeam su "New England Patriots").rows with
  | nil => simp only [ilocFirst, h1, error_bind]
  | cons a as =>
    cases h2 : (filterTeam te "Seattle Seahawks").rows with
    | nil => simp only [ilocFirst, h1, h2, ok_bind, error_bind]
    | cons b bs =>
      cases h3 : (filterTeam su "Seattle Seahawks").rows with
      | nil => simp only [ilocFirst, h1, h2, h3, ok_bind, error_bind]
      | cons c cs =>
        cases h4 : (filterTeam te "New England Patriots").rows with
        | nil => simp only [ilocFirst, h1, h2, h3, h4, ok_bind, error_bind]
        | cons d ds =>
          exfalso
          rcases h with h | h | h | h
          · rw [h1] at h
            exact List.noConfusion h
          · rw [h2] at h
            exact List.noConfusion h
          · rw [h3] at h
            exact List.noConfusion h
          · rw [h4] at h
            exact List.noConfusion h

/-- C8: if either fixed team has no row in the summary table or in the
teams table, and the run reaches the lookups — the feature and target
columns are present and the library fit succeeds on the cleaned data —
then the pipeline stops at the team lookup with the handler's diagnostic,
which names both fixed teams (in particular the missing one) and carries
a 10-element sample of the team names available in each table, exits with
status 1, and produces no prediction. -/
theorem missing_team_aborts (g s t : Table)
    (fitfn : Table → List Cell → Option (List Cell → ℚ)) (pf : List Cell → ℚ)
    (hf : ∀ f ∈ features, f ∈ (joinedTable g s t).cols)
    (hy : "points_scored" ∈ (joinedTable g s t).cols)
    (hfit : fitfn
        { cols := features,
          rows := (cleanedTable g s t).rows.map (fun r => features.map (fun c => (c, getD r c))) }
        ((cleanedTable g s t).rows.map (fun r => getD r "points_scored")) = some pf)
    (hmiss : (filterTeam s "New England Patriots").rows = [] ∨
             (filterTeam t "New England Patriots").rows = [] ∨
             (filterTeam s "Seattle Seahawks").rows = [] ∨
             (filterTeam t "Seattle Seahawks").rows = []) :
    runPipeline g s t fitfn = Except.error (mkLookupErr (summaryR s) t) ∧
    mkLookupErr (summaryR s) t = ProgErr.teamLookup
      ["New England Patriots", "Seattle Seahawks"]
      ((uniqueCells (summaryR s) "Team").take 10)
      ((uniqueCells t "Team").take 10) ∧
    exitCode (mkLookupErr (summaryR s) t) = 1 := by
  have htrans : ∀ name, (filterTeam s name).rows = [] →
      (filterTeam (summaryR s) name).rows = [] := by
    intro name hnil
    simp only [filterTeam] at hnil ⊢
    rw [summaryR_filter_team, hnil]
    rfl
  have hlk : lookupStage (summaryR s) t = Except.error (mkLookupErr (summaryR s) t) := by
    apply lookupStage_error
    rcases hmiss with h | h | h | h
    · exact Or.inl (htrans _ h)
    · exact Or.inr (Or.inr (Or.inr h))
    · exact Or.inr (Or.inr (Or.inl (htrans _ h)))
    · exact Or.inr (Or.inl h)
  have hclean : cleanGamesE (joinedTable g s t) = Except.ok (cleanedTable g s t) :=
    cleanGamesE_ok (joinedTable g s t) hf
  have hf2 : ∀ f ∈ features, f ∈ (cleanedTable g s t).cols := hf
  have hy2 : "points_scored" ∈ (cleanedTable g s t).cols := hy
  have h1 := trainCheck_ok (cleanedTable g s t) hf2 hy2
  refine ⟨?_, rfl, rfl⟩
  simp only [runPipeline, hclean, ok_bind, h1, hfit, hlk, error_bind]

/-- Closed witness for C8: a well-formed two-game training set (numeric
features and targets for teams `A` and `B`, so the real fit succeeds and
the model fit is witnessed by a fit function that returns a predictor)
whose tables contain neither fixed team ends in the team-lookup
diagnostic. -/
theorem missing_team_aborts_witness :
    runPipeline
      ⟨["Team", "Opponent", "Points Scored", "Opponent Defensive Tier",
        "Weighted Playoff Offense Score", "Offensive Momentum"],
       [[("Team", Cell.str "A"), ("Opponent", Cell.str "B"),
         ("Points Scored", Cell.num 10), ("Opponent Defensive Tier", Cell.num 1),
         ("Weighted Playoff Offense Score", Cell.num 7), ("Offensive Momentum", Cell.num 2)],
        [("Team", Cell.str "B"), ("Opponent", Cell.str "A"),
         ("Points Scored", Cell.num 13), ("Opponent Defensive Tier", Cell.num 2),
         ("Weighted Playoff Offense Score", Cell.num 6), ("Offensive Momentum", Cell.num 3)]]⟩
      ⟨["Team"], [[("Team", Cell.str "A")], [("Team", Cell.str "B")]]⟩
      ⟨["Team", "Average Points Allowed Per Game"],
       [[("Team", Cell.str "A"), ("Average Points Allowed Per Game", Cell.num 20)],
        [("Team", Cell.str "B"), ("Average Points Allowed Per Game", Cell.num 22)]]⟩
      (fun _ _ => some (fun _ => 0)) =
      Except.error (mkLookupErr
        (summaryR ⟨["Team"], [[("Team", Cell.str "A")], [("Team", Cell.str "B")]]⟩)
        ⟨["Team", "Average Points Allowed Per Game"],
         [[("Team", Cell.str "A"), ("Average Points Allowed Per Game", Cell.num 20)],
          [("Team", Cell.str "B"), ("Average Points Allowed Per Game", Cell.num 22)]]⟩) :=
  (missing_team_aborts
    ⟨["Team", "Opponent", "Points Scored", "Opponent Defensive Tier",
      "Weighted Playoff Offense Score", "Offensive Momentum"],
     [[("Team", Cell.str "A"), ("Opponent", Cell.str "B"),
       ("Points Scored", Cell.num 10), ("Opponent Defensive Tier", Cell.num 1),
       ("Weighted Playoff Offense Score", Cell.num 7), ("Offensive Momentum", Cell.num 2)],
      [("Team", Cell.str "B"), ("Opponent", Cell.str "A"),
       ("Points Scored", Cell.num 13), ("Opponent Defensive Tier", Cell.num 2),
       ("Weighted Playoff Offense Score", Cell.num 6), ("Offensive Momentum", Cell.num 3)]]⟩
    ⟨["Team"], [[("Team", Cell.str "A")], [("Team", Cell.str "B")]]⟩
    ⟨["Team", "Average Points Allowed Per Game"],
     [[("Team", Cell.str "A"), ("Average Points Allowed Per Game", Cell.num 20)],
      [("Team", Cell.str "B"), ("Average Points Allowed Per Game", Cell.num 22)]]⟩
    (fun _ _ => some (fun _ => 0)) (fun _ => 0)
    (by decide) (by decide) rfl (Or.inl (by decide))).1
